import Mathlib

/-!
Shallow embedding of the leetrack frontend fragments:
  - src/frontend/src/api/apiClient.js  (axios instance + request interceptor)
  - src/frontend/src/App.jsx           (route table)
-/

namespace Leetrack

/-- Browser-local storage: a partial map from keys to strings.
`localStorage.getItem` returns the stored string or `null` (here `none`). -/
def Storage := String → Option String

/-- `localStorage.getItem(key)`. -/
def getItem (s : Storage) (key : String) : Option String := s key

/-- The part of an axios request config the interceptor can see.
`headers` is the mutable header object; the remaining fields stand for
everything else on the config the interceptor never touches. -/
structure Config where
  url : Option String
  method : Option String
  data : Option String
  headers : String → Option String

/-- JS object property assignment on the headers object:
`headers[key] = value` overwrites any previous value at `key`. -/
def setHeader (h : String → Option String) (key value : String) :
    String → Option String :=
  fun k => if k = key then some value else h k

/-- The request interceptor success handler from apiClient.js:
```
const token = localStorage.getItem("accessToken");
if (token) { config.headers["Authorization"] = `Bearer ${token}`; }
return config;
```
`if (token)` tests JS truthiness: `null` and the empty string are falsy,
every other string is truthy. -/
def requestOnFulfilled (storage : Storage) (config : Config) : Config :=
  match getItem storage "accessToken" with
  | some token =>
      if token = "" then config
      else { config with
              headers := setHeader config.headers "Authorization" ("Bearer " ++ token) }
  | none => config

/-- A settled JS promise: either resolved with a value or rejected with an error. -/
inductive JsPromise (ε α : Type) where
  | resolved (value : α)
  | rejected (error : ε)

/-- The request interceptor error handler from apiClient.js:
`(error) => Promise.reject(error)`. -/
def requestOnRejected (ε : Type) (error : ε) : JsPromise ε Config :=
  JsPromise.rejected error

/-- The Vite environment: `import.meta.env.VITE_API_BASE_URL`
(possibly undefined, hence `Option`). -/
structure Env where
  viteApiBaseUrl : Option String

/-- `const API_BASE_URL = import.meta.env.VITE_API_BASE_URL;` -/
def API_BASE_URL (env : Env) : Option String := env.viteApiBaseUrl

/-- The configuration object passed to `axios.create`. -/
structure AxiosCreateConfig where
  baseURL : Option String
  headers : String → Option String

/-- The axios instance configuration from apiClient.js:
`axios.create({ baseURL: API_BASE_URL, headers: { "Content-Type": "application/json" } })`. -/
def apiClient (env : Env) : AxiosCreateConfig :=
  { baseURL := API_BASE_URL env
  , headers := fun k => if k = "Content-Type" then some "application/json" else none }

/-- A rendered placeholder element, e.g. an `<h1>` with its text. -/
structure Element where
  tag : String
  text : String
deriving DecidableEq

/-- One `<Route path=... element=... />` declaration. -/
structure RouteEntry where
  path : String
  element : Element
deriving DecidableEq

/-- The route table declared in App.jsx, in source order. -/
def App : List RouteEntry :=
  [ { path := "/login", element := { tag := "h1", text := "Login Page" } }
  , { path := "/", element := { tag := "h1", text := "Dashboard Page" } }
  , { path := "/settings", element := { tag := "h1", text := "Settings Page" } } ]

/-- First-match route lookup over a declared route list. -/
def findRoute : List RouteEntry → String → Option Element
  | [], _ => none
  | r :: rs, p => if r.path = p then some r.element else findRoute rs p

/-- What the `<Routes>` element of App.jsx renders at a given path. -/
def renderAt (path : String) : Option Element := findRoute App path

/-- A concrete config with no headers, for witnesses. -/
def cfg0 : Config :=
  { url := some "/problems", method := some "get", data := none
  , headers := fun _ => none }

/-!  Claims  -/

/-- C1 (counterexample): the claim quantifies over every storage state in which
a token string is stored under "accessToken". The empty string is a token
string, but `if (token)` is falsy on it, so the handler does not set the
Authorization header: at this concrete input the returned header is not
"Bearer " followed by the stored token. -/
theorem C1_counterexample :
    ¬ ((requestOnFulfilled (fun k => if k = "accessToken" then some "" else none)
        cfg0).headers "Authorization" = some ("Bearer " ++ "")) := by
  decide

/-- C1 (amended): whenever a nonempty token string is stored under
"accessToken", the success handler returns a config whose Authorization header
is exactly "Bearer " followed by that stored token value. -/
theorem C1_bearer_header (storage : Storage) (config : Config) (token : String)
    (hs : getItem storage "accessToken" = some token) (hne : token ≠ "") :
    (requestOnFulfilled storage config).headers "Authorization"
      = some ("Bearer " ++ token) := by
  unfold requestOnFulfilled
  rw [hs]
  simp [setHeader, hne]

/-- C1 witness: at a concrete storage holding the nonempty token "tok123"
and the concrete config `cfg0`. -/
theorem C1_bearer_header_witness :
    (requestOnFulfilled (fun k => if k = "accessToken" then some "tok123" else none)
      cfg0).headers "Authorization" = some ("Bearer " ++ "tok123") :=
  C1_bearer_header _ cfg0 "tok123" (by decide) (by decide)

/-- C2 (counterexample): the claim says the returned config's Authorization
header is absent whenever no token is stored. But the handler returns the
config unmodified, so a pre-existing Authorization header on the input
survives: at this concrete input the returned header is present. -/
theorem C2_counterexample :
    ¬ ((requestOnFulfilled (fun _ => none)
        { url := none, method := none, data := none
        , headers := fun k => if k = "Authorization" then some "stale" else none
        }).headers "Authorization" = none) := by
  decide

/-- C2 (amended): if no token is stored under "accessToken", the success
handler returns the input config unchanged — every field, including the
header object, equals the input's; in particular no Authorization header is
added. -/
theorem C2_no_token_identity (storage : Storage) (config : Config)
    (hs : getItem storage "accessToken" = none) :
    requestOnFulfilled storage config = config := by
  unfold requestOnFulfilled
  rw [hs]

/-- C2 witness: at the empty storage and the concrete config `cfg0`. -/
theorem C2_no_token_identity_witness :
    requestOnFulfilled (fun _ => none) cfg0 = cfg0 :=
  C2_no_token_identity (fun _ => none) cfg0 rfl

/-- C3: the error handler returns a rejection carrying exactly the error it
was given, and never a resolved value: rejection is the identity, with no
retry, recovery, or reclassification. -/
theorem C3_rejection_identity (ε : Type) (error : ε) :
    requestOnRejected ε error = JsPromise.rejected error ∧
    ∀ c : Config, requestOnRejected ε error ≠ JsPromise.resolved c := by
  refine ⟨rfl, fun c h => ?_⟩
  exact JsPromise.noConfusion h

/-- C3 witness: at the concrete error value `7` of type `Nat`. -/
theorem C3_rejection_identity_witness :
    requestOnRejected Nat 7 = JsPromise.rejected 7 :=
  (C3_rejection_identity Nat 7).1

/-- C4: when a token string is stored under "accessToken", the success
handler changes at most the Authorization header: the url, method and data
fields, and every header at a key other than "Authorization", equal those of
the input config. -/
theorem C4_frame (storage : Storage) (config : Config) (token : String)
    (hs : getItem storage "accessToken" = some token) :
    (requestOnFulfilled storage config).url = config.url ∧
    (requestOnFulfilled storage config).method = config.method ∧
    (requestOnFulfilled storage config).data = config.data ∧
    ∀ k, k ≠ "Authorization" →
      (requestOnFulfilled storage config).headers k = config.headers k := by
  unfold requestOnFulfilled
  rw [hs]
  by_cases he : token = ""
  · simp [he]
  · refine ⟨by simp [he], by simp [he], by simp [he], fun k hk => ?_⟩
    simp [he, setHeader, hk]

/-- C4 witness: at a concrete storage holding "tok123" and the config `cfg0`,
evaluated at the header key "Content-Type". -/
theorem C4_frame_witness :
    (requestOnFulfilled (fun k => if k = "accessToken" then some "tok123" else none)
      cfg0).headers "Content-Type" = cfg0.headers "Content-Type" :=
  (C4_frame _ cfg0 "tok123" (by decide)).2.2.2 "Content-Type" (by decide)

/-- C5: the axios instance is created with its baseURL equal to the
environment-supplied value VITE_API_BASE_URL. -/
theorem C5_baseURL (env : Env) :
    (apiClient env).baseURL = env.viteApiBaseUrl := rfl

/-- C6: the route table renders exactly three paths: "/login" an h1 reading
"Login Page", "/" an h1 reading "Dashboard Page", "/settings" an h1 reading
"Settings Page"; it declares exactly three routes and every other path
renders nothing. -/
theorem C6_route_table :
    renderAt "/login" = some { tag := "h1", text := "Login Page" } ∧
    renderAt "/" = some { tag := "h1", text := "Dashboard Page" } ∧
    renderAt "/settings" = some { tag := "h1", text := "Settings Page" } ∧
    App.length = 3 ∧
    ∀ p : String, p ≠ "/login" → p ≠ "/" → p ≠ "/settings" →
      renderAt p = none := by
  refine ⟨by decide, by decide, by decide, by decide, fun p h1 h2 h3 => ?_⟩
  show findRoute App p = none
  rw [App]
  rw [findRoute, if_neg (Ne.symm h1)]
  rw [findRoute, if_neg (Ne.symm h2)]
  rw [findRoute, if_neg (Ne.symm h3)]
  rw [findRoute]

/-- C6 witness: the undeclared path "/profile" renders nothing. -/
theorem C6_route_table_witness :
    renderAt "/profile" = none :=
  C6_route_table.2.2.2.2 "/profile" (by decide) (by decide) (by decide)

/-- C7: the success handler is deterministic in its inputs: it reads only the
config and the storage value under "accessToken", so two runs on equal
configs and storages agreeing at that key return equal configs. -/
theorem C7_determinism (s1 s2 : Storage) (c1 c2 : Config)
    (hs : getItem s1 "accessToken" = getItem s2 "accessToken") (hc : c1 = c2) :
    requestOnFulfilled s1 c1 = requestOnFulfilled s2 c2 := by
  subst hc
  unfold requestOnFulfilled
  rw [hs]

/-- C7 witness: two storages that differ away from "accessToken" but agree on
it produce the same output on `cfg0`. -/
theorem C7_determinism_witness :
    requestOnFulfilled (fun k => if k = "accessToken" then some "tok" else none) cfg0
      = requestOnFulfilled (fun _ => some "tok") cfg0 :=
  C7_determinism _ _ cfg0 cfg0 (by decide) rfl

/-- C8: if the value stored under "accessToken" is the empty string, the
handler treats it as absent (JS truthiness): no Authorization header is added
and the config is returned unmodified. -/
theorem C8_empty_token (storage : Storage) (config : Config)
    (hs : getItem storage "accessToken" = some "") :
    requestOnFulfilled storage config = config := by
  unfold requestOnFulfilled
  rw [hs]
  simp

/-- C8 witness: at a concrete storage holding the empty string and `cfg0`. -/
theorem C8_empty_token_witness :
    requestOnFulfilled (fun k => if k = "accessToken" then some "" else none) cfg0
      = cfg0 :=
  C8_empty_token _ cfg0 (by decide)

/-- C9: on a config already carrying an Authorization header, a stored
nonempty token overwrites it with "Bearer " followed by the token, while the
absence of a stored token leaves the pre-existing header in place. -/
theorem C9_preexisting_header (storage : Storage) (config : Config)
    (old : String) (hold : config.headers "Authorization" = some old) :
    (∀ token, getItem storage "accessToken" = some token → token ≠ "" →
      (requestOnFulfilled storage config).headers "Authorization"
        = some ("Bearer " ++ token)) ∧
    (getItem storage "accessToken" = none →
      (requestOnFulfilled storage config).headers "Authorization" = some old) := by
  constructor
  · intro token hs hne
    unfold requestOnFulfilled
    rw [hs]
    simp [setHeader, hne]
  · intro hs
    unfold requestOnFulfilled
    rw [hs, hold]

/-- C9 witness: with an empty storage, the pre-existing header "stale" on a
concrete config survives unchanged. -/
theorem C9_preexisting_header_witness :
    (requestOnFulfilled (fun _ => none)
      { url := none, method := none, data := none
      , headers := fun k => if k = "Authorization" then some "stale" else none
      }).headers "Authorization" = some "stale" :=
  (C9_preexisting_header (fun _ => none) _ "stale" (by decide)).2 rfl

/-- C10: the axios instance is created with a default Content-Type header of
"application/json", and that is its only default header. -/
theorem C10_content_type (env : Env) :
    (apiClient env).headers "Content-Type" = some "application/json" ∧
    ∀ k, k ≠ "Content-Type" → (apiClient env).headers k = none := by
  refine ⟨rfl, fun k hk => ?_⟩
  simp [apiClient, hk]

/-- C10 witness: at a concrete environment, evaluated at "Content-Type" and
at the unrelated key "Accept". -/
theorem C10_content_type_witness :
    (apiClient { viteApiBaseUrl := some "http://localhost:8000" }).headers
        "Content-Type" = some "application/json" ∧
    (apiClient { viteApiBaseUrl := some "http://localhost:8000" }).headers
        "Accept" = none :=
  ⟨(C10_content_type _).1,
   (C10_content_type _).2 "Accept" (by decide)⟩

end Leetrack
